import Mathlib

set_option maxRecDepth 100000

/-!
Shallow embedding of `src/lambda_function.py` (zoolanding-data-dropper-lambda).

The handler ingests an HTTP-style event carrying a JSON analytics payload,
validates `appName` and `timestamp`, derives a UTC-date storage key, and
uploads the original body bytes to an object store (or simulates the upload
in dry-run mode).  Python values that can appear in the pipeline are embedded
as `PyVal`; machine floats are modelled by exact rationals plus explicit
non-finite markers, so the truncation and comparison logic of
`_normalize_timestamp_to_ms` is exact.
-/

/-- Model of a Python float: a finite IEEE-754 binary64 value (its exact
rational value) or one of the non-finite values recognised by
`math.isfinite`.  Finite values are produced only through `roundDouble`, so
they always lie on the binary64 grid. -/
inductive PyFloat : Type where
  | finite (q : ℚ)
  | nan
  | inf
  | negInf
deriving Repr, DecidableEq

/-- A Python exception as the handler distinguishes them: a `ValueError`
(whose text reaches the caller through the 400 path) or any other exception
(`OverflowError`, `OSError`, ...), which only the blanket `except Exception`
catches and turns into the generic 500. -/
inductive PyErr : Type where
  | valueError (msg : String)
  | otherError
deriving Repr, DecidableEq

/-- Decides `2 ^ e ≤ n / d` for positive naturals `n`, `d` and an integer
exponent, in pure integer arithmetic. -/
def pow2LeFrac (e : ℤ) (n d : ℕ) : Bool :=
  if 0 ≤ e then d * Nat.pow 2 e.toNat ≤ n else d ≤ n * Nat.pow 2 (-e).toNat

/-- Binary search for the largest `e` in `[lo, hi]` with `2 ^ e ≤ n / d`,
assuming `2 ^ lo ≤ n / d`.  The constant fuel covers the binary64 exponent
range with ample margin. -/
def findExp : ℤ → ℤ → ℕ → ℕ → ℕ → ℤ
  | lo, _, 0, _, _ => lo
  | lo, hi, fuel + 1, n, d =>
    if hi ≤ lo then lo
    else
      let mid := (lo + hi + 1) / 2
      if pow2LeFrac mid n d then findExp mid hi fuel n d
      else findExp lo (mid - 1) fuel n d

/-- Round an exact rational to the nearest IEEE-754 binary64 value (ties to
even), as every float-producing operation of the source does: values of
magnitude at least 2^1024 (after rounding) overflow to the infinities,
values below the normal range land on the subnormal grid of step 2^-1074.
All arithmetic is integer arithmetic, so concrete instances evaluate. -/
def roundDouble (x : ℚ) : PyFloat :=
  if x = 0 then PyFloat.finite 0
  else
    let n := x.num.natAbs
    let d := x.den
    if pow2LeFrac 1024 n d then (if x < 0 then PyFloat.negInf else PyFloat.inf)
    else
      let g : ℤ :=
        if pow2LeFrac (-1022) n d then findExp (-1022) 1023 64 n d - 52
        else -1074
      let N : ℕ := if 0 ≤ g then n else n * Nat.pow 2 (-g).toNat
      let D : ℕ := if 0 ≤ g then d * Nat.pow 2 g.toNat else d
      let m0 := N / D
      let r := N % D
      let m : ℕ :=
        if D < 2 * r then m0 + 1
        else if 2 * r < D then m0
        else if m0 % 2 = 0 then m0 else m0 + 1
      let over : Bool :=
        if 0 ≤ g then Nat.pow 2 1024 ≤ m * Nat.pow 2 g.toNat
        else Nat.pow 2 (1024 + (-g).toNat) ≤ m
      if over then (if x < 0 then PyFloat.negInf else PyFloat.inf)
      else
        let v : ℚ :=
          if 0 ≤ g then mkRat ((m : ℤ) * ((Nat.pow 2 g.toNat : ℕ) : ℤ)) 1
          else mkRat (m : ℤ) (Nat.pow 2 (-g).toNat)
        PyFloat.finite (if x < 0 then -v else v)

/-- Model of the Python values flowing through the handler: the results of
`json.loads` (None, bool, int, float, str, list, dict) plus `bytes`, which an
invoker may put in the event body.  Dict entries are kept in insertion order;
a later duplicate key wins on lookup, as in a Python dict. -/
inductive PyVal : Type where
  | none
  | bool (b : Bool)
  | int (n : ℤ)
  | float (f : PyFloat)
  | str (s : String)
  | list (xs : List PyVal)
  | dict (kvs : List (String × PyVal))
  | bytes (bs : List ℕ)
deriving Repr

/-- Lookup in a parsed JSON object, mirroring Python `dict.get`: the value of
the last occurrence of the key (later duplicate keys overwrite earlier ones
when `json.loads` builds the dict), or `none` when the key is absent. -/
def pyDictGet (kvs : List (String × PyVal)) (k : String) : Option PyVal :=
  (kvs.reverse.find? (fun kv => kv.1 = k)).map (·.2)

/-- Truncation toward zero of a rational, mirroring Python `int()` applied to
a numeric value. -/
def ratTrunc (q : ℚ) : ℤ :=
  q.num.tdiv (q.den : ℤ)

/-- The numeric value of a Python object, when `isinstance(x, (int, float))`
holds and `math.isfinite(x)` is true; `none` otherwise.  Python `bool` is a
subclass of `int`, so `True` counts as `1` and `False` as `0`; non-finite
floats (`nan`, `inf`, `-inf`) yield `none` because `math.isfinite` rejects
them. -/
def pyNumValue : PyVal → Option ℚ
  | .bool b => some (if b then 1 else 0)
  | .int n => some (n : ℚ)
  | .float (.finite q) => some q
  | _ => Option.none

/-- Embedding of `_normalize_timestamp_to_ms`: reject anything that is not a
finite `int`/`float` with a `ValueError`, then compute
`int(ts if ts >= 10**12 else ts * 1000)` with Python's arithmetic: `bool`
and `int` timestamps use exact integer arithmetic (the threshold is
`10**12` = 1000000000000), a `float` timestamp compares exactly against the
integer threshold, and `ts * 1000` on a float is an IEEE binary64 multiply,
i.e. the exact product rounded to the nearest double, to which `int()` then
applies exact truncation toward zero.  A product that overflows to an
infinity makes `int()` raise `OverflowError`, which only the blanket
exception handler catches. -/
def _normalize_timestamp_to_ms (ts : PyVal) : Except PyErr ℤ :=
  match ts with
  | .bool b => Except.ok ((if b then 1 else 0) * 1000)
  | .int n => Except.ok (if (1000000000000 : ℤ) ≤ n then n else n * 1000)
  | .float (.finite q) =>
    if ((1000000000000 : ℤ) : ℚ) ≤ q then Except.ok (ratTrunc q)
    else
      match roundDouble (q * 1000) with
      | PyFloat.finite p => Except.ok (ratTrunc p)
      | _ => Except.error PyErr.otherError
  | _ => Except.error (PyErr.valueError "Missing or invalid timestamp")

/-- Characters removed by Python `str.strip()`: the ASCII whitespace set plus
the Unicode space characters Python treats as whitespace. -/
def pyIsSpace (c : Char) : Bool :=
  let n := c.toNat
  (0x9 ≤ n && n ≤ 0xd) || n = 0x20 || n = 0x1c || n = 0x1d || n = 0x1e || n = 0x1f ||
  n = 0x85 || n = 0xa0 || n = 0x1680 || (0x2000 ≤ n && n ≤ 0x200a) ||
  n = 0x2028 || n = 0x2029 || n = 0x202f || n = 0x205f || n = 0x3000

/-- Civil date (year, month, day) of a count of days since 1970-01-01, in the
proleptic Gregorian calendar (Howard Hinnant's `civil_from_days`), the
calendar used by `datetime.fromtimestamp(_, tz=timezone.utc)`. -/
def civilFromDays (z : ℤ) : ℤ × ℕ × ℕ :=
  let zs : ℤ := z + 719468
  let era : ℤ := Int.fdiv zs 146097
  let doe : ℕ := (zs - era * 146097).toNat
  let yoe : ℕ := (doe - doe / 1460 + doe / 36524 - doe / 146096) / 365
  let y : ℤ := (yoe : ℤ) + era * 400
  let doy : ℕ := doe - (365 * yoe + yoe / 4 - yoe / 100)
  let mp : ℕ := (5 * doy + 2) / 153
  let d : ℕ := doy - (153 * mp + 2) / 5 + 1
  let m : ℕ := if mp < 10 then mp + 3 else mp - 9
  (if m ≤ 2 then y + 1 else y, m, d)

/-- Zero-padded two-digit rendering, as produced by `strftime` with
a two-digit field directive. -/
def pad2 (n : ℕ) : String :=
  if n < 10 then "0" ++ toString n else toString n

/-- Embedding of `_derive_date_parts`: UTC year / month / day strings of a
millisecond timestamp via `datetime.fromtimestamp(ts_ms / 1000.0, tz=utc)`
followed by `strftime` of the year, month and day fields.  The civil day is
the floor of the timestamp over the milliseconds in a day; for every
timestamp whose date lies in `datetime`'s supported years 1-9999 this is
exact (an integer count of milliseconds there is at least a full
millisecond away from a day boundary unless it sits on one exactly, far
more than the rounding of the float division).  Out-of-range timestamps
raise: `ValueError("year N is out of range")` when the year computation
succeeds but leaves 1-9999 (caught by the handler's `except ValueError`),
and `OverflowError`/`OSError` (modelled as `PyErr.otherError`) when the
seconds overflow the 64-bit `time_t` or the year overflows the C `tm_year`
field. -/
def _derive_date_parts (tsMs : ℤ) : Except PyErr (String × String × String) :=
  if 9223372036854775808000 ≤ tsMs ∨ tsMs ≤ -9223372036854775808000 then
    Except.error PyErr.otherError
  else
    let c := civilFromDays (Int.fdiv tsMs 86400000)
    if 1 ≤ c.1 ∧ c.1 ≤ 9999 then
      Except.ok (toString c.1, pad2 c.2.1, pad2 c.2.2)
    else if c.1 < -2147481748 ∨ 2147485547 < c.1 then
      Except.error PyErr.otherError
    else
      Except.error (PyErr.valueError ("year " ++ toString c.1 ++ " is out of range"))

/-- UTF-8 encoding of a single scalar value, as `str.encode("utf-8")`
produces per character. -/
def utf8EncodeChar (c : Char) : List ℕ :=
  let n := c.toNat
  if n < 0x80 then [n]
  else if n < 0x800 then [0xc0 + n / 64, 0x80 + n % 64]
  else if n < 0x10000 then [0xe0 + n / 4096, 0x80 + (n / 64) % 64, 0x80 + n % 64]
  else [0xf0 + n / 262144, 0x80 + (n / 4096) % 64, 0x80 + (n / 64) % 64, 0x80 + n % 64]

/-- UTF-8 encoding of a string, modelling Python `s.encode("utf-8")`. -/
def utf8Encode (s : String) : List ℕ :=
  s.data.foldr (fun c acc => utf8EncodeChar c ++ acc) []

/-- Strict UTF-8 decoding of a byte list, modelling Python
`bytes.decode("utf-8")`: rejects stray continuation bytes, overlong forms,
surrogates and values above U+10FFFF, exactly the shapes the strict codec
rejects (a failure raises `UnicodeDecodeError`, a `ValueError`). -/
def utf8Decode : List ℕ → Except String (List Char)
  | [] => Except.ok []
  | b1 :: rest =>
    if b1 < 0x80 then
      (utf8Decode rest).map (fun cs => Char.ofNat b1 :: cs)
    else if b1 < 0xc2 then
      Except.error "utf-8 codec cannot decode byte"
    else if b1 < 0xe0 then
      match rest with
      | b2 :: rest2 =>
        if 0x80 ≤ b2 && b2 < 0xc0 then
          (utf8Decode rest2).map (fun cs => Char.ofNat ((b1 - 0xc0) * 64 + (b2 - 0x80)) :: cs)
        else Except.error "utf-8 codec cannot decode byte"
      | _ => Except.error "utf-8 codec cannot decode byte"
    else if b1 < 0xf0 then
      match rest with
      | b2 :: b3 :: rest3 =>
        let lo2 := if b1 = 0xe0 then 0xa0 else 0x80
        let hi2 := if b1 = 0xed then 0xa0 else 0xc0
        if lo2 ≤ b2 && b2 < hi2 && 0x80 ≤ b3 && b3 < 0xc0 then
          (utf8Decode rest3).map
            (fun cs => Char.ofNat ((b1 - 0xe0) * 4096 + (b2 - 0x80) * 64 + (b3 - 0x80)) :: cs)
        else Except.error "utf-8 codec cannot decode byte"
      | _ => Except.error "utf-8 codec cannot decode byte"
    else if b1 < 0xf5 then
      match rest with
      | b2 :: b3 :: b4 :: rest4 =>
        let lo2 := if b1 = 0xf0 then 0x90 else 0x80
        let hi2 := if b1 = 0xf4 then 0x90 else 0xc0
        if lo2 ≤ b2 && b2 < hi2 && 0x80 ≤ b3 && b3 < 0xc0 && 0x80 ≤ b4 && b4 < 0xc0 then
          (utf8Decode rest4).map
            (fun cs =>
              Char.ofNat
                ((b1 - 0xf0) * 262144 + (b2 - 0x80) * 4096 + (b3 - 0x80) * 64 + (b4 - 0x80)) :: cs)
        else Except.error "utf-8 codec cannot decode byte"
      | _ => Except.error "utf-8 codec cannot decode byte"
    else Except.error "utf-8 codec cannot decode byte"

/-- Hexadecimal digit rendering used when emitting escaped code points. -/
def hexDigit (n : ℕ) : Char :=
  if n < 10 then Char.ofNat (48 + n) else Char.ofNat (87 + n)

/-- Four lowercase hexadecimal digits of a code unit, as in a JSON escape. -/
def hex4 (n : ℕ) : List Char :=
  [hexDigit (n / 4096 % 16), hexDigit (n / 256 % 16), hexDigit (n / 16 % 16), hexDigit (n % 16)]

/-- Per-character escaping of `json.dumps` with its default
`ensure_ascii=True`: the two-character escapes for quote, backslash and the
common control characters, numeric escapes for the other control characters
and for everything outside the printable ASCII range (astral code points
become a surrogate pair of escapes). -/
def escChar (c : Char) : List Char :=
  let n := c.toNat
  if c = '"' then ['\\', '"']
  else if c = '\\' then ['\\', '\\']
  else if c = '\n' then ['\\', 'n']
  else if c = '\t' then ['\\', 't']
  else if c = '\r' then ['\\', 'r']
  else if n = 8 then ['\\', 'b']
  else if n = 12 then ['\\', 'f']
  else if 0x20 ≤ n && n ≤ 0x7e then [c]
  else if n < 0x10000 then '\\' :: 'u' :: hex4 n
  else
    let m := n - 0x10000
    ('\\' :: 'u' :: hex4 (0xd800 + m / 1024)) ++ ('\\' :: 'u' :: hex4 (0xdc00 + m % 1024))

/-- JSON rendering of a string by `json.dumps` (default `ensure_ascii`):
a double-quoted, escaped form. -/
def pyDumpStr (s : String) : String :=
  ⟨'"' :: s.data.foldr (fun c acc => escChar c ++ acc) ['"']⟩

/-- Fuel-driven body of `pyJsonDumps` (the fuel only bounds the recursion
depth; `pyJsonDumps` supplies enough for the whole value).  Container
renderings use the default `json.dumps` separators `", "` and `": "`, which
is what the `_decode_body` fallback branch calls.  Finite floats are rendered
from the exact rational model (`repr` of a machine float is approximated by
the rational's decimal rendering). -/
def pyJsonDumpsGo : ℕ → PyVal → String
  | 0, _ => ""
  | _ + 1, .none => "null"
  | _ + 1, .bool b => if b then "true" else "false"
  | _ + 1, .int n => toString n
  | _ + 1, .float (.finite q) => toString q
  | _ + 1, .float .nan => "NaN"
  | _ + 1, .float .inf => "Infinity"
  | _ + 1, .float .negInf => "-Infinity"
  | _ + 1, .str s => pyDumpStr s
  | fuel + 1, .list xs =>
    "[" ++ String.intercalate ", " (xs.map (pyJsonDumpsGo fuel)) ++ "]"
  | fuel + 1, .dict kvs =>
    "\x7b" ++
      String.intercalate ", "
        (kvs.map (fun kv => pyDumpStr kv.1 ++ ": " ++ pyJsonDumpsGo fuel kv.2)) ++
    "\x7d"
  | _ + 1, .bytes _ => ""

mutual

/-- Nesting depth of a `PyVal`, used to hand `pyJsonDumpsGo` enough fuel. -/
def pyValDepth : PyVal → ℕ
  | .list xs => pyValListDepth xs + 1
  | .dict kvs => pyValKvsDepth kvs + 1
  | _ => 1

/-- Depth of the deepest element of a list of values. -/
def pyValListDepth : List PyVal → ℕ
  | [] => 0
  | x :: xs => max (pyValDepth x) (pyValListDepth xs)

/-- Depth of the deepest value in an association list. -/
def pyValKvsDepth : List (String × PyVal) → ℕ
  | [] => 0
  | kv :: kvs => max (pyValDepth kv.2) (pyValKvsDepth kvs)

end

/-- Model of `json.dumps(body)` for the pre-parsed-structure fallback of
`_decode_body`. -/
def pyJsonDumps (v : PyVal) : String :=
  pyJsonDumpsGo (pyValDepth v) v

/-- Value of a base64 alphabet character, `none` for anything else. -/
def b64Val (c : Char) : Option ℕ :=
  let n := c.toNat
  if 65 ≤ n && n ≤ 90 then some (n - 65)
  else if 97 ≤ n && n ≤ 122 then some (n - 71)
  else if 48 ≤ n && n ≤ 57 then some (n + 4)
  else if c = '+' then some 62
  else if c = '/' then some 63
  else Option.none

/-- Keep only alphabet characters and padding, as `base64.b64decode` does
before the length check (non-alphabet characters are discarded when
validation is off, its default). -/
def b64Filter (cs : List Char) : List Char :=
  cs.filter (fun c => (b64Val c).isSome || c = '=')

/-- Decode filtered base64 quads into bytes; padding is accepted only at the
end, and a quad with broken padding or a trailing partial quad is an error
(`binascii.Error`, a `ValueError`). -/
def b64Quads : List Char → Except String (List ℕ)
  | [] => Except.ok []
  | a :: b :: '=' :: '=' :: rest =>
    match b64Val a, b64Val b, rest with
    | some va, some vb, [] => Except.ok [va * 4 + vb / 16]
    | _, _, _ => Except.error "Invalid base64-encoded string"
  | a :: b :: c :: '=' :: rest =>
    match b64Val a, b64Val b, b64Val c, rest with
    | some va, some vb, some vc, [] =>
      let n := va * 262144 + vb * 4096 + vc * 64
      Except.ok [n / 65536, n / 256 % 256]
    | _, _, _, _ => Except.error "Invalid base64-encoded string"
  | a :: b :: c :: d :: rest =>
    match b64Val a, b64Val b, b64Val c, b64Val d with
    | some va, some vb, some vc, some vd =>
      (b64Quads rest).map (fun tail =>
        let n := va * 262144 + vb * 4096 + vc * 64 + vd
        n / 65536 :: n / 256 % 256 :: n % 256 :: tail)
    | _, _, _, _ => Except.error "Invalid base64-encoded string"
  | _ => Except.error "Invalid base64-encoded string"

/-- Model of `base64.b64decode(body).decode("utf-8")` for a text body: the
input must be ASCII (`str.encode("ascii")` inside `b64decode` fails
otherwise), non-alphabet characters are discarded, the remainder is decoded
in quads, and the resulting bytes are UTF-8 decoded.  Every failure is a
`ValueError` in Python, so it surfaces as a client error. -/
def b64decodeUtf8 (s : String) : Except String String :=
  if s.data.all (fun c => c.toNat < 128) then
    match b64Quads (b64Filter s.data) with
    | Except.error e => Except.error e
    | Except.ok bs => (utf8Decode bs).map (fun cs => ⟨cs⟩)
  else Except.error "string argument should contain only ASCII characters"

/-- JSON insignificant whitespace skipper (space, tab, newline, carriage
return), as the parser of `json.loads` skips between tokens. -/
def skipWs : List Char → List Char
  | [] => []
  | c :: cs => if c = ' ' || c = '\t' || c = '\n' || c = '\r' then skipWs cs else c :: cs

/-- Value of one hexadecimal digit (both cases), `none` otherwise. -/
def hexVal (c : Char) : Option ℕ :=
  let n := c.toNat
  if 48 ≤ n && n ≤ 57 then some (n - 48)
  else if 97 ≤ n && n ≤ 102 then some (n - 87)
  else if 65 ≤ n && n ≤ 70 then some (n - 55)
  else Option.none

/-- Body of a JSON string after the opening quote: accumulates characters
until the closing quote, handling the JSON escapes.  `\uXXXX` surrogate
pairs combine into one code point; a lone surrogate (which a Python str can
hold but a Lean `Char` cannot) is modelled by U+FFFD.  Control characters
are rejected, as `json.loads` does in its default strict mode. -/
def parseStringGo : ℕ → List Char → List Char → Except String (String × List Char)
  | 0, _, _ => Except.error "Unterminated string"
  | _ + 1, _, [] => Except.error "Unterminated string"
  | _ + 1, acc, '"' :: rest => Except.ok (⟨acc.reverse⟩, rest)
  | fuel + 1, acc, '\\' :: rest =>
    match rest with
    | '"' :: r => parseStringGo fuel ('"' :: acc) r
    | '\\' :: r => parseStringGo fuel ('\\' :: acc) r
    | '/' :: r => parseStringGo fuel ('/' :: acc) r
    | 'b' :: r => parseStringGo fuel (Char.ofNat 8 :: acc) r
    | 'f' :: r => parseStringGo fuel (Char.ofNat 12 :: acc) r
    | 'n' :: r => parseStringGo fuel ('\n' :: acc) r
    | 'r' :: r => parseStringGo fuel ('\r' :: acc) r
    | 't' :: r => parseStringGo fuel ('\t' :: acc) r
    | 'u' :: h1 :: h2 :: h3 :: h4 :: r =>
      match hexVal h1, hexVal h2, hexVal h3, hexVal h4 with
      | some a, some b, some c, some d =>
        let n := a * 4096 + b * 256 + c * 16 + d
        if 0xd800 ≤ n && n < 0xdc00 then
          match r with
          | '\\' :: 'u' :: g1 :: g2 :: g3 :: g4 :: r2 =>
            match hexVal g1, hexVal g2, hexVal g3, hexVal g4 with
            | some a2, some b2, some c2, some d2 =>
              let n2 := a2 * 4096 + b2 * 256 + c2 * 16 + d2
              if 0xdc00 ≤ n2 && n2 < 0xe000 then
                parseStringGo fuel
                  (Char.ofNat (0x10000 + (n - 0xd800) * 1024 + (n2 - 0xdc00)) :: acc) r2
              else parseStringGo fuel (Char.ofNat 0xfffd :: acc) r
            | _, _, _, _ => parseStringGo fuel (Char.ofNat 0xfffd :: acc) r
          | _ => parseStringGo fuel (Char.ofNat 0xfffd :: acc) r
        else if 0xdc00 ≤ n && n < 0xe000 then
          parseStringGo fuel (Char.ofNat 0xfffd :: acc) r
        else parseStringGo fuel (Char.ofNat n :: acc) r
      | _, _, _, _ => Except.error "Invalid hexadecimal escape"
    | _ => Except.error "Invalid escape"
  | fuel + 1, acc, c :: rest =>
    if c.toNat < 0x20 then Except.error "Invalid control character"
    else parseStringGo fuel (c :: acc) rest

/-- JSON string body parser entry point: hands `parseStringGo` fuel past the
input length (each step consumes at least one character). -/
def parseString (cs : List Char) : Except String (String × List Char) :=
  parseStringGo (cs.length + 1) [] cs

/-- Longest digit prefix of a character list, and the remainder. -/
def takeDigits : List Char → List Char × List Char
  | [] => ([], [])
  | c :: rest =>
    if c.isDigit then
      let p := takeDigits rest
      (c :: p.1, p.2)
    else ([], c :: rest)

/-- Natural number denoted by a list of decimal digits. -/
def digitsToNat (ds : List Char) : ℕ :=
  ds.foldl (fun acc c => acc * 10 + (c.toNat - 48)) 0

/-- Fraction part of a JSON number: a dot followed by at least one digit;
anything else is left unconsumed, matching the maximal-munch regex of the
`json` scanner. -/
def parseFrac : List Char → List Char × List Char
  | '.' :: c :: rest =>
    if c.isDigit then
      let p := takeDigits rest
      (c :: p.1, p.2)
    else ([], '.' :: c :: rest)
  | cs => ([], cs)

/-- Exponent part of a JSON number: `e`/`E`, an optional sign, and at least
one digit; anything else is left unconsumed. -/
def parseExp : List Char → Option ℤ × List Char
  | e :: rest =>
    if e = 'e' || e = 'E' then
      match rest with
      | '+' :: c :: r =>
        if c.isDigit then
          let p := takeDigits r
          (some (digitsToNat (c :: p.1) : ℤ), p.2)
        else (Option.none, e :: rest)
      | '-' :: c :: r =>
        if c.isDigit then
          let p := takeDigits r
          (some (-(digitsToNat (c :: p.1) : ℤ)), p.2)
        else (Option.none, e :: rest)
      | c :: r =>
        if c.isDigit then
          let p := takeDigits r
          (some (digitsToNat (c :: p.1) : ℤ), p.2)
        else (Option.none, e :: rest)
      | [] => (Option.none, e :: rest)
    else (Option.none, e :: rest)
  | [] => (Option.none, [])

/-- JSON number scanner of `json.loads`: optional minus, an integer part
(`0` or a nonzero-led digit run), optional fraction and exponent.  A number
with neither fraction nor exponent becomes a Python `int`; otherwise a
`float`, whose value is modelled exactly as a rational. -/
def parseNumber (cs : List Char) : Except String (PyVal × List Char) :=
  let sn := match cs with
    | '-' :: r => (true, r)
    | _ => (false, cs)
  match sn.2 with
  | c :: r =>
    if c = '0' || c.isDigit then
      let ip := if c = '0' then ([c], r) else
        let p := takeDigits r
        (c :: p.1, p.2)
      let fp := parseFrac ip.2
      let ep := parseExp fp.2
      if fp.1.isEmpty && ep.1.isNone then
        let n : ℤ := (digitsToNat ip.1 : ℤ)
        Except.ok (PyVal.int (if sn.1 then -n else n), ip.2)
      else
        -- `json.loads` builds the float with `float(literal)`: the exact
        -- decimal value, correctly rounded to the nearest binary64 (an
        -- overflowing literal such as 1e400 becomes an infinity).
        let mant : ℕ := digitsToNat (ip.1 ++ fp.1)
        let k : ℤ := ep.1.getD 0 - (fp.1.length : ℤ)
        let exact : ℚ :=
          if 0 ≤ k then mkRat ((mant : ℤ) * ((Nat.pow 10 k.toNat : ℕ) : ℤ)) 1
          else mkRat (mant : ℤ) (Nat.pow 10 (-k).toNat)
        Except.ok (PyVal.float (roundDouble (if sn.1 then -exact else exact)), ep.2)
    else Except.error "Expecting value"
  | [] => Except.error "Expecting value"

mutual

/-- JSON value parser of `json.loads`: skips whitespace and dispatches on the
first character; recognises objects, arrays, strings, numbers, the literals
`true`/`false`/`null`, and the Python extensions `NaN`, `Infinity`,
`-Infinity`.  Fuel only bounds recursion depth and exceeds the input length
wherever the parser is entered. -/
def parseVal : ℕ → List Char → Except String (PyVal × List Char)
  | 0, _ => Except.error "Expecting value"
  | fuel + 1, cs =>
    match skipWs cs with
    | [] => Except.error "Expecting value"
    | '\x7b' :: rest => parseObjFirst fuel rest
    | '[' :: rest => parseArrFirst fuel rest
    | '"' :: rest => (parseString rest).map (fun sr => (PyVal.str sr.1, sr.2))
    | 't' :: 'r' :: 'u' :: 'e' :: rest => Except.ok (PyVal.bool true, rest)
    | 'f' :: 'a' :: 'l' :: 's' :: 'e' :: rest => Except.ok (PyVal.bool false, rest)
    | 'n' :: 'u' :: 'l' :: 'l' :: rest => Except.ok (PyVal.none, rest)
    | 'N' :: 'a' :: 'N' :: rest => Except.ok (PyVal.float .nan, rest)
    | 'I' :: 'n' :: 'f' :: 'i' :: 'n' :: 'i' :: 't' :: 'y' :: rest =>
      Except.ok (PyVal.float .inf, rest)
    | '-' :: 'I' :: 'n' :: 'f' :: 'i' :: 'n' :: 'i' :: 't' :: 'y' :: rest =>
      Except.ok (PyVal.float .negInf, rest)
    | c :: rest =>
      if c = '-' || c.isDigit then parseNumber (c :: rest)
      else Except.error "Expecting value"

/-- Object parser entered just after the opening brace: an immediately
closing brace yields the empty dict, otherwise members follow. -/
def parseObjFirst : ℕ → List Char → Except String (PyVal × List Char)
  | 0, _ => Except.error "Expecting property name enclosed in double quotes"
  | fuel + 1, cs =>
    match skipWs cs with
    | '\x7d' :: rest => Except.ok (PyVal.dict [], rest)
    | cs2 => parseMembers fuel cs2 []

/-- Members of an object: a quoted key, a colon, a value, then either a comma
and further members or the closing brace. -/
def parseMembers : ℕ → List Char → List (String × PyVal) →
    Except String (PyVal × List Char)
  | 0, _, _ => Except.error "Expecting property name enclosed in double quotes"
  | fuel + 1, cs, acc =>
    match cs with
    | '"' :: rest =>
      match parseString rest with
      | Except.error e => Except.error e
      | Except.ok kr =>
        match skipWs kr.2 with
        | ':' :: r2 =>
          match parseVal fuel r2 with
          | Except.error e => Except.error e
          | Except.ok vr =>
            match skipWs vr.2 with
            | ',' :: r4 => parseMembers fuel (skipWs r4) ((kr.1, vr.1) :: acc)
            | '\x7d' :: r4 => Except.ok (PyVal.dict ((kr.1, vr.1) :: acc).reverse, r4)
            | _ => Except.error "Expecting comma delimiter"
        | _ => Except.error "Expecting colon delimiter"
    | _ => Except.error "Expecting property name enclosed in double quotes"

/-- Array parser entered just after the opening bracket. -/
def parseArrFirst : ℕ → List Char → Except String (PyVal × List Char)
  | 0, _ => Except.error "Expecting value"
  | fuel + 1, cs =>
    match skipWs cs with
    | ']' :: rest => Except.ok (PyVal.list [], rest)
    | cs2 => parseElems fuel cs2 []

/-- Elements of an array: a value, then either a comma and further elements
or the closing bracket. -/
def parseElems : ℕ → List Char → List PyVal → Except String (PyVal × List Char)
  | 0, _, _ => Except.error "Expecting value"
  | fuel + 1, cs, acc =>
    match parseVal fuel cs with
    | Except.error e => Except.error e
    | Except.ok vr =>
      match skipWs vr.2 with
      | ',' :: r2 => parseElems fuel r2 (vr.1 :: acc)
      | ']' :: r2 => Except.ok (PyVal.list (vr.1 :: acc).reverse, r2)
      | _ => Except.error "Expecting comma delimiter"

end

/-- Embedding of `json.loads`: parse one value and require only whitespace to
follow, else the distinct trailing-garbage error. -/
def pyJsonLoads (s : String) : Except String PyVal :=
  match parseVal (s.data.length + 2) s.data with
  | Except.error e => Except.error e
  | Except.ok vr =>
    if (skipWs vr.2).isEmpty then Except.ok vr.1 else Except.error "Extra data"

/-- The invocation envelope: `event.get("body")` (absent keys and JSON null
both surface as Python `None`, modelled by `Option`/`PyVal.none`) and the
truthiness of `event.get("isBase64Encoded", False)`. -/
structure Event : Type where
  body : Option PyVal
  isBase64Encoded : Bool

/-- The invocation context: the `aws_request_id` attribute as `getattr`
reads it (absent attribute modelled by `none`; a present attribute can hold
any value), plus the wall-clock-derived fallback id the code computes from
`hex(int(now_utc_ms))[-8:]` — an opaque external input to the model. -/
structure Context : Type where
  reqId : Option PyVal
  fallback : String

/-- Environment-derived configuration: `RAW_BUCKET_NAME` and the decoded
`DRY_RUN` flag. -/
structure Config : Type where
  rawBucketName : String
  dryRun : Bool

/-- Outcome of the storage collaborator for this invocation: whether
`_get_s3_client()` succeeds (`boto3` importable and client construction ok)
and whether the `put_object` call succeeds. -/
structure S3Behavior : Type where
  clientOk : Bool
  putOk : Bool

/-- Response envelope of the handler: status code, the content-type header
value, and the JSON-serialized body text. -/
structure Response : Type where
  statusCode : ℕ
  contentType : String
  body : String
deriving Repr

/-- One `put_object` invocation observed on the storage interface. -/
structure PutCall : Type where
  bucket : String
  key : String
  body : List ℕ
  contentType : String

/-- Result of one handler invocation: the response and the list of
`put_object` calls issued (attempted calls included, in order). -/
structure HandlerResult : Type where
  response : Response
  puts : List PutCall

/-- Embedding of `_json_response`: wrap an already-serialized JSON body with
the status code and content-type header. -/
def _json_response (status : ℕ) (bodyJson : String) : Response :=
  ⟨status, "application/json", bodyJson⟩

/-- Embedding of `_bad_request`: the 400 response whose body is
`json.dumps({"ok": False, "error": msg}, separators=(",", ":"))`. -/
def _bad_request (msg : String) : Response :=
  _json_response 400 ("\x7b\"ok\":false,\"error\":" ++ pyDumpStr msg ++ "\x7d")

/-- Embedding of `_server_error`: the 500 response with the fixed generic
body. -/
def _server_error : Response :=
  _json_response 500 "\x7b\"ok\":false,\"error\":\"Internal error\"\x7d"

/-- Serialized success body: `{"ok": True, "bucket": .., "key": .., "size":
..}` with `"dryRun": True` appended in dry-run mode, rendered by
`json.dumps` with compact separators in insertion order. -/
def okRespBody (bucket key : String) (size : ℕ) (dry : Bool) : String :=
  "\x7b\"ok\":true,\"bucket\":" ++ pyDumpStr bucket ++ ",\"key\":" ++ pyDumpStr key ++
    ",\"size\":" ++ toString size ++ (if dry then ",\"dryRun\":true\x7d" else "\x7d")

/-- Embedding of `_get_request_id`: the last 8 characters of the context
request id when it is a string of length at least 8, otherwise the
wall-clock fallback. -/
def _get_request_id (ctx : Context) : String :=
  match ctx.reqId with
  | some (.str s) =>
    if 8 ≤ s.data.length then ⟨s.data.drop (s.data.length - 8)⟩ else ctx.fallback
  | _ => ctx.fallback

/-- Is the body the empty string?  (`body == ""` in Python is only true for
an empty `str`; empty `bytes` compares unequal to `""`.) -/
def isEmptyStr : PyVal → Bool
  | .str s => s = ""
  | _ => false

/-- Is the value Python `None`?  (`body is None`). -/
def isPyNone : PyVal → Bool
  | .none => true
  | _ => false

/-- Embedding of `_decode_body`: reject a missing or empty body; when the
base64 flag is set decode a text body (anything else is an error); otherwise
pass text through, UTF-8 decode byte content, and re-serialize a pre-parsed
structure.  Every error raised is a `ValueError`, which the handler converts
to a 400. -/
def _decode_body (event : Event) : Except String String :=
  match event.body with
  | Option.none => Except.error "Missing body"
  | some bv =>
    if isPyNone bv then Except.error "Missing body"
    else if isEmptyStr bv then Except.error "Missing body"
    else if event.isBase64Encoded then
      match bv with
      | .str s => b64decodeUtf8 s
      | _ => Except.error "Body is base64Encoded but not a string"
    else
      match bv with
      | .str s => Except.ok s
      | .bytes bs => (utf8Decode bs).map (fun cs => ⟨cs⟩)
      | _ => Except.ok (pyJsonDumps bv)

/-- Step 5 of the handler: the f-string
`f"{app_name}/{yyyy}/{mm}/{dd}/{ts_ms}-{short_reqId}.json"` over the date
parts the derivation produced (the appName is used verbatim, not
trimmed). -/
def handlerKey (appName : String) (parts : String × String × String) (tsMs : ℤ)
    (shortReqId : String) : String :=
  appName ++ "/" ++ parts.1 ++ "/" ++ parts.2.1 ++ "/" ++ parts.2.2 ++ "/" ++
    toString tsMs ++ "-" ++ shortReqId ++ ".json"

/-- Steps 6 and 7 of the handler: upload the UTF-8 bytes of the original
body string (or skip in dry-run), then build the success response; a client
construction failure or a failing `put_object` is caught and mapped to the
generic server error.  A failing `put_object` call is still recorded as an
attempted call. -/
def storeAndRespond (cfg : Config) (s3 : S3Behavior) (bodyStr key : String) : HandlerResult :=
  let sizeBytes := (utf8Encode bodyStr).length
  if cfg.dryRun then
    ⟨_json_response 200 (okRespBody cfg.rawBucketName key sizeBytes true), []⟩
  else if s3.clientOk then
    if s3.putOk then
      ⟨_json_response 200 (okRespBody cfg.rawBucketName key sizeBytes false),
       [⟨cfg.rawBucketName, key, utf8Encode bodyStr, "application/json"⟩]⟩
    else
      ⟨_server_error, [⟨cfg.rawBucketName, key, utf8Encode bodyStr, "application/json"⟩]⟩
  else ⟨_server_error, []⟩

/-- Embedding of `lambda_handler`: decode the body, parse JSON, validate
`appName` and `timestamp`, derive the date-partitioned key, then upload (or
simulate in dry-run) and build the response.  A `ValueError` from
normalization is caught at the call site (and one from the date derivation
by the outer `except ValueError`) and returned as a 400 with the error's
text; any other exception (`OverflowError`/`OSError` from `int()` or
`fromtimestamp`, `AttributeError` from `payload.get` on a non-dict parse
result) falls to the blanket handler and becomes the generic 500. -/
def lambda_handler (cfg : Config) (s3 : S3Behavior) (event : Event) (ctx : Context) :
    HandlerResult :=
  let shortReqId := _get_request_id ctx
  match _decode_body event with
  | Except.error msg => ⟨_bad_request msg, []⟩
  | Except.ok bodyStr =>
    match pyJsonLoads bodyStr with
    | Except.error _ => ⟨_bad_request "Body is not valid JSON", []⟩
    | Except.ok payload =>
      match payload with
      | .dict kvs =>
        match (pyDictGet kvs "appName").getD PyVal.none with
        | .str appName =>
          if appName.data.all pyIsSpace then ⟨_bad_request "Missing or invalid appName", []⟩
          else
            match _normalize_timestamp_to_ms ((pyDictGet kvs "timestamp").getD PyVal.none) with
            | Except.error (PyErr.valueError msg) => ⟨_bad_request msg, []⟩
            | Except.error PyErr.otherError => ⟨_server_error, []⟩
            | Except.ok tsMs =>
              match _derive_date_parts tsMs with
              | Except.error (PyErr.valueError msg) => ⟨_bad_request msg, []⟩
              | Except.error PyErr.otherError => ⟨_server_error, []⟩
              | Except.ok parts =>
                storeAndRespond cfg s3 bodyStr (handlerKey appName parts tsMs shortReqId)
        | _ => ⟨_bad_request "Missing or invalid appName", []⟩
      | _ => ⟨_server_error, []⟩

/-- Embedding of the `DRY_RUN` environment decoding:
`os.getenv("DRY_RUN", "0") in {"1", "true", "TRUE", "yes", "YES"}`. -/
def DRY_RUN_of (env : Option String) : Bool :=
  let v := env.getD "0"
  v = "1" || v = "true" || v = "TRUE" || v = "yes" || v = "YES"

/-- Configuration as the module initialisation derives it from the
environment (`RAW_BUCKET_NAME` with its default, and the `DRY_RUN` flag). -/
def configOfEnv (bucketEnv dryRunEnv : Option String) : Config :=
  ⟨bucketEnv.getD "zoolanding-data-raw", DRY_RUN_of dryRunEnv⟩

/-- The `appName` rejection condition of the handler (`not isinstance(app_name,
str) or not app_name.strip()`): the looked-up value is not text, or is text
that is empty or whitespace-only after trimming. -/
def appNameInvalid (o : Option PyVal) : Bool :=
  match o.getD PyVal.none with
  | .str s => s.data.all pyIsSpace
  | _ => true

/-- ASCII lowercasing of one character, to state what a case-insensitive
variant of a configuration word is. -/
def pyLowerChar (c : Char) : Char :=
  if 65 ≤ c.toNat && c.toNat ≤ 90 then Char.ofNat (c.toNat + 32) else c

/-- ASCII lowercasing of a string. -/
def pyLower (s : String) : String :=
  ⟨s.data.map pyLowerChar⟩

/-- Decidable equality of `Except` results, used to evaluate the embedded
operations on concrete inputs. -/
instance {ε α : Type} [DecidableEq ε] [DecidableEq α] : DecidableEq (Except ε α) := fun a b =>
  match a, b with
  | Except.error x, Except.error y =>
    if h : x = y then Decidable.isTrue (h ▸ rfl)
    else Decidable.isFalse (fun hh => h (by cases hh; rfl))
  | Except.ok x, Except.ok y =>
    if h : x = y then Decidable.isTrue (h ▸ rfl)
    else Decidable.isFalse (fun hh => h (by cases hh; rfl))
  | Except.error _, Except.ok _ => Decidable.isFalse (fun hh => Except.noConfusion hh)
  | Except.ok _, Except.error _ => Decidable.isFalse (fun hh => Except.noConfusion hh)

/-! Helper lemmas about the embedded operations. -/

/-- Truncation is the identity on integer values, as Python `int()` is on an
`int`. -/
lemma ratTrunc_intCast (n : ℤ) : ratTrunc (n : ℚ) = n := by
  simp [ratTrunc, Rat.num_intCast, Rat.den_intCast, Int.tdiv_one]

/-- On nonnegative rationals, truncation toward zero agrees with the floor. -/
lemma ratTrunc_eq_floor (q : ℚ) (h : 0 ≤ q) : ratTrunc q = ⌊q⌋ := by
  rw [ratTrunc, Rat.floor_def]
  exact Int.tdiv_eq_ediv (Rat.num_nonneg.mpr h) (by positivity)

/-- A nonnegative integer lower bound on a rational survives truncation. -/
lemma le_ratTrunc (z : ℤ) (q : ℚ) (hz : 0 ≤ z) (h : (z : ℚ) ≤ q) : z ≤ ratTrunc q := by
  rw [ratTrunc_eq_floor q (le_trans (by exact_mod_cast hz) h)]
  exact Int.le_floor.mpr h

/-- Normalization rejects exactly the non-numeric and non-finite values with
the `ValueError` the source raises. -/
lemma normalize_invalid (v : PyVal) (h : pyNumValue v = Option.none) :
    _normalize_timestamp_to_ms v =
      Except.error (PyErr.valueError "Missing or invalid timestamp") := by
  cases v with
  | bool b => simp [pyNumValue] at h
  | int n => simp [pyNumValue] at h
  | float f =>
    cases f with
    | finite q => simp [pyNumValue] at h
    | nan => rfl
    | inf => rfl
    | negInf => rfl
  | none => rfl
  | str s => rfl
  | list xs => rfl
  | dict kvs => rfl
  | bytes bs => rfl

/-- Normalization of a small (below 10^12) integer timestamp: exact
multiplication by 1000. -/
lemma normalize_int_small (n m : ℤ) (h : n < 1000000000000) (hm : n * 1000 = m) :
    _normalize_timestamp_to_ms (PyVal.int n) = Except.ok m := by
  simp only [_normalize_timestamp_to_ms, if_neg (not_le.mpr h), hm]

/-- Normalization of a float already at or above the millisecond threshold:
exact truncation, no multiplication. -/
lemma normalize_float_ge (q : ℚ) (h : ((1000000000000 : ℤ) : ℚ) ≤ q) :
    _normalize_timestamp_to_ms (PyVal.float (PyFloat.finite q)) = Except.ok (ratTrunc q) := by
  simp only [_normalize_timestamp_to_ms, if_pos h]

/-- Normalization of a float below the threshold whose double product is
finite: truncation of the rounded product. -/
lemma normalize_float_small (q p : ℚ) (h : ¬ ((1000000000000 : ℤ) : ℚ) ≤ q)
    (hr : roundDouble (q * 1000) = PyFloat.finite p) :
    _normalize_timestamp_to_ms (PyVal.float (PyFloat.finite q)) = Except.ok (ratTrunc p) := by
  simp only [_normalize_timestamp_to_ms, if_neg h, hr]

/-- Normalization of the Python boolean True: numeric value 1, hence 1000
milliseconds by exact integer arithmetic. -/
lemma normalize_bool_true : _normalize_timestamp_to_ms (PyVal.bool true) = Except.ok 1000 := rfl

/-- Normalization of the Python boolean False: numeric value 0, hence 0
milliseconds. -/
lemma normalize_bool_false : _normalize_timestamp_to_ms (PyVal.bool false) = Except.ok 0 := rfl

/-- Every numeric Python value carrying the value 1700000000 (an int, or the
exactly representable double) normalizes to 1700000000000 milliseconds: the
product 1.7e12 is an integer below 2^53, so even the double multiply is
exact. -/
lemma normalize_value_17e8 (tv : PyVal) (h : pyNumValue tv = some 1700000000) :
    _normalize_timestamp_to_ms tv = Except.ok 1700000000000 := by
  cases tv with
  | bool b =>
    exfalso
    cases b <;> simp [pyNumValue] at h
  | int n =>
    simp only [pyNumValue, Option.some.injEq] at h
    have hn : n = 1700000000 := by exact_mod_cast h
    subst hn
    simp only [_normalize_timestamp_to_ms,
      if_neg (by norm_num : ¬ ((1000000000000 : ℤ) ≤ (1700000000 : ℤ)))]
    norm_num
  | float f =>
    cases f with
    | finite q =>
      simp only [pyNumValue, Option.some.injEq] at h
      subst h
      have h1 : ¬ ((1000000000000 : ℤ) : ℚ) ≤ (1700000000 : ℚ) := by decide
      have h2 : (1700000000 : ℚ) * 1000 = (1700000000000 : ℚ) := by norm_num
      have h3 : roundDouble (1700000000000 : ℚ) = PyFloat.finite 1700000000000 := by decide
      rw [normalize_float_small 1700000000 1700000000000 h1 (by rw [h2]; exact h3)]
      have h4 : ratTrunc (1700000000000 : ℚ) = 1700000000000 := by decide
      rw [h4]
    | nan => simp [pyNumValue] at h
    | inf => simp [pyNumValue] at h
    | negInf => simp [pyNumValue] at h
  | none => simp [pyNumValue] at h
  | str s => simp [pyNumValue] at h
  | list xs => simp [pyNumValue] at h
  | dict kvs => simp [pyNumValue] at h
  | bytes bs => simp [pyNumValue] at h

/-- When the context request id is a string with an 8-character tail, the
short request id is exactly that tail. -/
lemma get_request_id_suffix (ctx : Context) (r suffix : String) (pre : List Char)
    (hreq : ctx.reqId = some (PyVal.str r))
    (hdata : r.data = pre ++ suffix.data)
    (hlen : suffix.data.length = 8) :
    _get_request_id ctx = suffix := by
  unfold _get_request_id
  rw [hreq]
  dsimp only
  have hl : r.data.length = pre.length + 8 := by
    rw [hdata, List.length_append, hlen]
  have hge : 8 ≤ r.data.length := by omega
  rw [if_pos hge]
  have hdrop : r.data.drop (r.data.length - 8) = suffix.data := by
    rw [hl, Nat.add_sub_cancel, hdata]
    exact List.drop_left pre suffix.data
  rw [hdrop]

/-- On the fully validated path (including a successful date derivation) the
handler is the storage step applied to the derived key. -/
lemma lambda_handler_validated (cfg : Config) (s3 : S3Behavior) (event : Event)
    (ctx : Context) (bodyStr : String) (kvs : List (String × PyVal)) (a : String)
    (tsMs : ℤ) (parts : String × String × String)
    (hdec : _decode_body event = Except.ok bodyStr)
    (hparse : pyJsonLoads bodyStr = Except.ok (PyVal.dict kvs))
    (happ : (pyDictGet kvs "appName").getD PyVal.none = PyVal.str a)
    (hws : a.data.all pyIsSpace = false)
    (hts : _normalize_timestamp_to_ms ((pyDictGet kvs "timestamp").getD PyVal.none) =
      Except.ok tsMs)
    (hder : _derive_date_parts tsMs = Except.ok parts) :
    lambda_handler cfg s3 event ctx =
      storeAndRespond cfg s3 bodyStr (handlerKey a parts tsMs (_get_request_id ctx)) := by
  unfold lambda_handler
  simp [hdec, hparse, happ, hws, hts, hder]

/-- In dry-run mode no branch of the handler records a put call. -/
lemma dryRun_no_puts (cfg : Config) (s3 : S3Behavior) (event : Event) (ctx : Context)
    (hd : cfg.dryRun = true) : (lambda_handler cfg s3 event ctx).puts = [] := by
  unfold lambda_handler storeAndRespond
  simp only [hd]
  repeat' split
  all_goals first | rfl | simp_all

/-- Every handler response is the generic server error, some bad request, or
some 200 response. -/
lemma lambda_handler_response_shape (cfg : Config) (s3 : S3Behavior) (event : Event)
    (ctx : Context) :
    (lambda_handler cfg s3 event ctx).response = _server_error
    ∨ (∃ msg, (lambda_handler cfg s3 event ctx).response = _bad_request msg)
    ∨ (∃ b, (lambda_handler cfg s3 event ctx).response = _json_response 200 b) := by
  unfold lambda_handler storeAndRespond
  repeat' split
  all_goals first
    | exact Or.inl rfl
    | exact Or.inr (Or.inl ⟨_, rfl⟩)
    | exact Or.inr (Or.inr ⟨_, rfl⟩)

/-- Once the body has decoded to `bodyStr`, the put list is empty or the
single call carrying exactly the UTF-8 bytes of `bodyStr`. -/
lemma lambda_handler_puts_shape (cfg : Config) (s3 : S3Behavior) (event : Event)
    (ctx : Context) (bodyStr : String)
    (hdec : _decode_body event = Except.ok bodyStr) :
    (lambda_handler cfg s3 event ctx).puts = []
    ∨ ∃ key, (lambda_handler cfg s3 event ctx).puts =
        [⟨cfg.rawBucketName, key, utf8Encode bodyStr, "application/json"⟩] := by
  unfold lambda_handler storeAndRespond
  simp only [hdec]
  repeat' split
  all_goals first | exact Or.inl rfl | exact Or.inr ⟨_, rfl⟩

/-- Exhaustive shape of a handler result once the body has decoded: a bad
request with no puts, a server error with no puts (client construction
failure or a pre-storage fault), a server error after one failed put
attempt, a dry-run success with no puts, or a live success with exactly one
put.  Every put carries the UTF-8 bytes of the decoded body. -/
lemma lambda_handler_result_shape (cfg : Config) (s3 : S3Behavior) (event : Event)
    (ctx : Context) (bodyStr : String)
    (hdec : _decode_body event = Except.ok bodyStr) :
    (∃ msg, lambda_handler cfg s3 event ctx = ⟨_bad_request msg, []⟩)
    ∨ lambda_handler cfg s3 event ctx = ⟨_server_error, []⟩
    ∨ (∃ key, lambda_handler cfg s3 event ctx =
        ⟨_server_error, [⟨cfg.rawBucketName, key, utf8Encode bodyStr, "application/json"⟩]⟩)
    ∨ (∃ key, cfg.dryRun = true ∧ lambda_handler cfg s3 event ctx =
        ⟨_json_response 200
          (okRespBody cfg.rawBucketName key (utf8Encode bodyStr).length true), []⟩)
    ∨ (∃ key, cfg.dryRun = false ∧ lambda_handler cfg s3 event ctx =
        ⟨_json_response 200
          (okRespBody cfg.rawBucketName key (utf8Encode bodyStr).length false),
         [⟨cfg.rawBucketName, key, utf8Encode bodyStr, "application/json"⟩]⟩) := by
  unfold lambda_handler storeAndRespond
  simp only [hdec]
  repeat' split
  all_goals first
    | exact Or.inl ⟨_, rfl⟩
    | exact Or.inr (Or.inl rfl)
    | exact Or.inr (Or.inr (Or.inl ⟨_, rfl⟩))
    | (refine Or.inr (Or.inr (Or.inr (Or.inl ⟨_, ?_, rfl⟩))); assumption)
    | (refine Or.inr (Or.inr (Or.inr (Or.inr ⟨_, ?_, rfl⟩))); simp_all)

/-- Once the body has decoded to `bodyStr`, any 200 response carries the
success body built from the configured bucket, some key, the UTF-8 byte
length of `bodyStr`, and the dry-run marker matching the configuration. -/
lemma lambda_handler_200_shape (cfg : Config) (s3 : S3Behavior) (event : Event)
    (ctx : Context) (bodyStr : String)
    (hdec : _decode_body event = Except.ok bodyStr)
    (h200 : (lambda_handler cfg s3 event ctx).response.statusCode = 200) :
    ∃ key, (lambda_handler cfg s3 event ctx).response =
      _json_response 200
        (okRespBody cfg.rawBucketName key (utf8Encode bodyStr).length cfg.dryRun) := by
  rcases lambda_handler_result_shape cfg s3 event ctx bodyStr hdec with
    ⟨msg, h⟩ | h | ⟨key, h⟩ | ⟨key, hd, h⟩ | ⟨key, hd, h⟩
  · rw [h] at h200; simp [_bad_request, _json_response] at h200
  · rw [h] at h200; simp [_server_error, _json_response] at h200
  · rw [h] at h200; simp [_server_error, _json_response] at h200
  · exact ⟨key, by rw [h]; simp [hd]⟩
  · exact ⟨key, by rw [h]; simp [hd]⟩

/-! Claim theorems. -/

/-- C2 counterexample: the IEEE binary64 value 7613591443252183/2^30
(7090709.585 in decimal notation) is a finite numeric timestamp below 10^12,
yet normalization returns 7090709585 — the truncation of the rounded double
product, which the multiply carried up across the integer — while the
truncation toward zero of the exact product ts·1000 is 7090709584.  The
claim's "integer truncation (toward zero) of ts * 1000" therefore fails on
this input. -/
theorem claim_C2_counterexample :
    pyNumValue (PyVal.float (PyFloat.finite (mkRat 7613591443252183 1073741824))) =
      some (mkRat 7613591443252183 1073741824)
    ∧ roundDouble (mkRat 7613591443252183 1073741824) =
      PyFloat.finite (mkRat 7613591443252183 1073741824)
    ∧ ¬ ((10 ^ 12 : ℚ) ≤ mkRat 7613591443252183 1073741824)
    ∧ _normalize_timestamp_to_ms
        (PyVal.float (PyFloat.finite (mkRat 7613591443252183 1073741824))) =
      Except.ok 7090709585
    ∧ ratTrunc (mkRat 7613591443252183 1073741824 * 1000) = 7090709584
    ∧ (7090709585 : ℤ) ≠ 7090709584 := by
  have h1 : ¬ ((1000000000000 : ℤ) : ℚ) ≤ mkRat 7613591443252183 1073741824 := by decide
  have hm : mkRat 7613591443252183 1073741824 * 1000 = mkRat 951698930406522875 134217728 := by
    rw [Rat.mkRat_eq_div, Rat.mkRat_eq_div]
    norm_num
  have hr : roundDouble (mkRat 951698930406522875 134217728) =
      PyFloat.finite 7090709585 := by decide
  refine ⟨rfl, by decide, ?_, ?_, ?_, by decide⟩
  · have hcast : ((1000000000000 : ℤ) : ℚ) = (10 ^ 12 : ℚ) := by norm_num
    rw [← hcast]
    exact h1
  · rw [normalize_float_small _ 7090709585 h1 (by rw [hm]; exact hr)]
    have ht : ratTrunc (7090709585 : ℚ) = 7090709585 := by decide
    rw [ht]
  · rw [hm]
    decide

/-- C2 amended: booleans and integers normalize with exact integer
arithmetic (value if at least 10^12, else value times 1000); a float at or
above 10^12 truncates exactly; a float below 10^12 truncates the IEEE
binary64 product ts * 1000 (the exact product rounded to nearest, which can
differ by one from the exact truncation), and a product overflowing to an
infinity is a server-side OverflowError; every non-numeric, missing, or
non-finite timestamp fails with ValueError "Missing or invalid timestamp"
and the handler returns the 400 response with that message and no put. -/
theorem claim_C2_amended :
    (∀ b : Bool, _normalize_timestamp_to_ms (PyVal.bool b) =
      Except.ok ((if b then 1 else 0) * 1000))
    ∧ (∀ n : ℤ, _normalize_timestamp_to_ms (PyVal.int n) =
      Except.ok (if (1000000000000 : ℤ) ≤ n then n else n * 1000))
    ∧ (∀ q : ℚ, ((1000000000000 : ℤ) : ℚ) ≤ q →
      _normalize_timestamp_to_ms (PyVal.float (PyFloat.finite q)) =
        Except.ok (ratTrunc q))
    ∧ (∀ q p : ℚ, ¬ ((1000000000000 : ℤ) : ℚ) ≤ q →
      roundDouble (q * 1000) = PyFloat.finite p →
      _normalize_timestamp_to_ms (PyVal.float (PyFloat.finite q)) =
        Except.ok (ratTrunc p))
    ∧ (∀ q : ℚ, ¬ ((1000000000000 : ℤ) : ℚ) ≤ q →
      roundDouble (q * 1000) = PyFloat.negInf →
      _normalize_timestamp_to_ms (PyVal.float (PyFloat.finite q)) =
        Except.error PyErr.otherError)
    ∧ (∀ v, pyNumValue v = Option.none →
      _normalize_timestamp_to_ms v =
        Except.error (PyErr.valueError "Missing or invalid timestamp"))
    ∧ (∀ cfg s3 event ctx bodyStr kvs a,
        _decode_body event = Except.ok bodyStr →
        pyJsonLoads bodyStr = Except.ok (PyVal.dict kvs) →
        (pyDictGet kvs "appName").getD PyVal.none = PyVal.str a →
        a.data.all pyIsSpace = false →
        pyNumValue ((pyDictGet kvs "timestamp").getD PyVal.none) = Option.none →
        (lambda_handler cfg s3 event ctx).response = _bad_request "Missing or invalid timestamp"
        ∧ (lambda_handler cfg s3 event ctx).response.statusCode = 400
        ∧ (lambda_handler cfg s3 event ctx).puts = []) := by
  refine ⟨fun b => rfl, fun n => rfl, normalize_float_ge, normalize_float_small, ?_, 
    normalize_invalid, ?_⟩
  · intro q h hr
    simp only [_normalize_timestamp_to_ms, if_neg h, hr]
  · intro cfg s3 event ctx bodyStr kvs a hdec hparse happ hws hts
    have hn := normalize_invalid _ hts
    unfold lambda_handler
    simp [hdec, hparse, happ, hws, hn, _bad_request, _json_response]

/-- C2 amended witness: a concrete integer, a concrete float with its
rounded product, a concrete non-finite, and a concrete invocation whose
timestamp is a string. -/
theorem claim_C2_amended_witness :
    _normalize_timestamp_to_ms (PyVal.int 5) =
      Except.ok (if (1000000000000 : ℤ) ≤ 5 then 5 else 5 * 1000)
    ∧ _normalize_timestamp_to_ms (PyVal.float (PyFloat.finite 1700000000)) =
      Except.ok (ratTrunc (1700000000000 : ℚ))
    ∧ _normalize_timestamp_to_ms (PyVal.float PyFloat.nan) =
      Except.error (PyErr.valueError "Missing or invalid timestamp")
    ∧ (lambda_handler ⟨"zoolanding-data-raw", true⟩ ⟨true, true⟩
        ⟨some (PyVal.str "\x7b\"appName\":\"x\",\"timestamp\":\"soon\"\x7d"), false⟩
        ⟨Option.none, "deadbeef"⟩).response =
      _bad_request "Missing or invalid timestamp" :=
  ⟨claim_C2_amended.2.1 5,
   claim_C2_amended.2.2.2.1 1700000000 1700000000000 (by decide)
     (by rw [(by norm_num : (1700000000 : ℚ) * 1000 = (1700000000000 : ℚ))]
         decide),
   claim_C2_amended.2.2.2.2.2.1 (PyVal.float PyFloat.nan) rfl,
   (claim_C2_amended.2.2.2.2.2.2 ⟨"zoolanding-data-raw", true⟩ ⟨true, true⟩
      ⟨some (PyVal.str "\x7b\"appName\":\"x\",\"timestamp\":\"soon\"\x7d"), false⟩
      ⟨Option.none, "deadbeef"⟩
      "\x7b\"appName\":\"x\",\"timestamp\":\"soon\"\x7d"
      [("appName", PyVal.str "x"), ("timestamp", PyVal.str "soon")] "x"
      rfl (by rfl) (by rfl) (by decide) (by rfl)).1⟩

/-- C9 counterexample: the finite float value 10^12 + 1/2 is at least 10^12
and numeric, yet normalization returns 10^12, not the value unchanged. -/
theorem claim_C9_counterexample :
    pyNumValue (PyVal.float (PyFloat.finite ((10 ^ 12 : ℚ) + 1 / 2))) =
      some ((10 ^ 12 : ℚ) + 1 / 2)
    ∧ (10 ^ 12 : ℚ) ≤ (10 ^ 12 : ℚ) + 1 / 2
    ∧ _normalize_timestamp_to_ms (PyVal.float (PyFloat.finite ((10 ^ 12 : ℚ) + 1 / 2))) =
      Except.ok (10 ^ 12 : ℤ)
    ∧ (((10 ^ 12 : ℤ) : ℚ)) ≠ (10 ^ 12 : ℚ) + 1 / 2 := by
  refine ⟨rfl, by norm_num, ?_, by norm_num⟩
  have hle : ((1000000000000 : ℤ) : ℚ) ≤ (10 ^ 12 : ℚ) + 1 / 2 := by norm_num
  have htr : ratTrunc ((10 ^ 12 : ℚ) + 1 / 2) = (10 ^ 12 : ℤ) := by
    rw [ratTrunc_eq_floor _ (by positivity), Int.floor_eq_iff]
    constructor <;> norm_num
  rw [normalize_float_ge _ hle, htr]

/-- C9 amended: for every finite numeric timestamp value at least 10^12 the
normalization returns its truncation toward zero, which is the value itself
whenever the timestamp is an integer; and normalization is idempotent there:
normalizing the integer result again returns the same value. -/
theorem claim_C9_amended :
    ∀ v q, pyNumValue v = some q → (10 ^ 12 : ℚ) ≤ q →
      _normalize_timestamp_to_ms v = Except.ok (ratTrunc q)
      ∧ (∀ n : ℤ, v = PyVal.int n → ratTrunc q = n)
      ∧ _normalize_timestamp_to_ms (PyVal.int (ratTrunc q)) = Except.ok (ratTrunc q) := by
  intro v q h hq
  have hq2 : ((1000000000000 : ℤ) : ℚ) ≤ q := le_trans (by norm_num) hq
  have htr : (1000000000000 : ℤ) ≤ ratTrunc q := le_ratTrunc _ _ (by norm_num) hq2
  refine ⟨?_, ?_, ?_⟩
  · cases v with
    | bool b =>
      exfalso
      cases b <;> simp [pyNumValue] at h <;> rw [← h] at hq <;> norm_num at hq
    | int n =>
      simp only [pyNumValue, Option.some.injEq] at h
      rw [← h] at hq2
      have hn : (1000000000000 : ℤ) ≤ n := by exact_mod_cast hq2
      simp only [_normalize_timestamp_to_ms, if_pos hn]
      rw [← h, ratTrunc_intCast]
    | float f =>
      cases f with
      | finite qq =>
        simp only [pyNumValue, Option.some.injEq] at h
        subst h
        exact normalize_float_ge qq hq2
      | nan => simp [pyNumValue] at h
      | inf => simp [pyNumValue] at h
      | negInf => simp [pyNumValue] at h
    | none => simp [pyNumValue] at h
    | str s => simp [pyNumValue] at h
    | list xs => simp [pyNumValue] at h
    | dict kvs => simp [pyNumValue] at h
    | bytes bs => simp [pyNumValue] at h
  · intro n hv
    subst hv
    simp only [pyNumValue, Option.some.injEq] at h
    rw [← h]
    exact ratTrunc_intCast n
  · simp only [_normalize_timestamp_to_ms, if_pos htr]

/-- C9 amended witness: the integer millisecond value 1700000000000 is left
unchanged and re-normalizing is a no-op. -/
theorem claim_C9_amended_witness :
    _normalize_timestamp_to_ms (PyVal.int 1700000000000) =
      Except.ok (ratTrunc (1700000000000 : ℚ))
    ∧ (ratTrunc ((1700000000000 : ℤ) : ℚ)) = (1700000000000 : ℤ)
    ∧ _normalize_timestamp_to_ms (PyVal.int (ratTrunc (1700000000000 : ℚ))) =
      Except.ok (ratTrunc (1700000000000 : ℚ)) := by
  have h := claim_C9_amended (PyVal.int 1700000000000) (1700000000000 : ℚ)
    (by norm_num [pyNumValue]) (by norm_num)
  exact ⟨h.1, h.2.1 1700000000000 rfl, h.2.2⟩

/-- C10: because Python booleans are instances of int, a boolean timestamp
passes validation: True normalizes to 1000 ms and False to 0 ms, and an
otherwise-valid request with timestamp True yields a 200 response. -/
theorem claim_C10 :
    _normalize_timestamp_to_ms (PyVal.bool true) = Except.ok 1000
    ∧ _normalize_timestamp_to_ms (PyVal.bool false) = Except.ok 0
    ∧ (∀ cfg s3 event ctx bodyStr kvs a,
        _decode_body event = Except.ok bodyStr →
        pyJsonLoads bodyStr = Except.ok (PyVal.dict kvs) →
        (pyDictGet kvs "appName").getD PyVal.none = PyVal.str a →
        a.data.all pyIsSpace = false →
        (pyDictGet kvs "timestamp").getD PyVal.none = PyVal.bool true →
        (cfg.dryRun = true ∨ (s3.clientOk = true ∧ s3.putOk = true)) →
        (lambda_handler cfg s3 event ctx).response.statusCode = 200) := by
  refine ⟨normalize_bool_true, normalize_bool_false, ?_⟩
  intro cfg s3 event ctx bodyStr kvs a hdec hparse happ hws hts hok
  have hn : _normalize_timestamp_to_ms ((pyDictGet kvs "timestamp").getD PyVal.none) =
      Except.ok 1000 := by rw [hts]; exact normalize_bool_true
  have hder : _derive_date_parts 1000 = Except.ok ("1970", "01", "01") := by decide
  rw [lambda_handler_validated cfg s3 event ctx bodyStr kvs a 1000 ("1970", "01", "01")
    hdec hparse happ hws hn hder]
  rcases hok with hd | ⟨hc, hp⟩
  · simp [storeAndRespond, hd, _json_response]
  · by_cases hd : cfg.dryRun = true
    · simp [storeAndRespond, hd, _json_response]
    · simp [storeAndRespond, hd, hc, hp, _json_response]

/-- C10 witness: a concrete otherwise-valid request whose timestamp is the
JSON boolean true gets a 200. -/
theorem claim_C10_witness :
    _normalize_timestamp_to_ms (PyVal.bool true) = Except.ok 1000
    ∧ (lambda_handler ⟨"zoolanding-data-raw", true⟩ ⟨true, true⟩
        ⟨some (PyVal.str "\x7b\"appName\":\"demo\",\"timestamp\":true\x7d"), false⟩
        ⟨Option.none, "deadbeef"⟩).response.statusCode = 200 :=
  ⟨claim_C10.1,
   claim_C10.2.2 ⟨"zoolanding-data-raw", true⟩ ⟨true, true⟩
     ⟨some (PyVal.str "\x7b\"appName\":\"demo\",\"timestamp\":true\x7d"), false⟩
     ⟨Option.none, "deadbeef"⟩
     "\x7b\"appName\":\"demo\",\"timestamp\":true\x7d"
     [("appName", PyVal.str "demo"), ("timestamp", PyVal.bool true)] "demo"
     rfl (by rfl) (by rfl) (by decide) (by rfl) (Or.inl rfl)⟩

/-- C4: a parsed JSON object whose appName is missing, not text, or
whitespace-only after trimming yields the 400 response with message
"Missing or invalid appName", and no put call is attempted. -/
theorem claim_C4 :
    ∀ cfg s3 event ctx bodyStr kvs,
      _decode_body event = Except.ok bodyStr →
      pyJsonLoads bodyStr = Except.ok (PyVal.dict kvs) →
      appNameInvalid (pyDictGet kvs "appName") = true →
      (lambda_handler cfg s3 event ctx).response = _bad_request "Missing or invalid appName"
      ∧ (lambda_handler cfg s3 event ctx).response.statusCode = 400
      ∧ (lambda_handler cfg s3 event ctx).puts = [] := by
  intro cfg s3 event ctx bodyStr kvs hdec hparse hinv
  unfold appNameInvalid at hinv
  unfold lambda_handler
  cases happ : (pyDictGet kvs "appName").getD PyVal.none <;>
    rw [happ] at hinv <;>
    simp_all [hdec, hparse, _bad_request, _json_response]

/-- C4 witness: a whitespace-only appName gets the 400 and no put. -/
theorem claim_C4_witness :
    (lambda_handler ⟨"zoolanding-data-raw", false⟩ ⟨true, true⟩
      ⟨some (PyVal.str "\x7b\"appName\":\"  \",\"timestamp\":5\x7d"), false⟩
      ⟨Option.none, "deadbeef"⟩).response = _bad_request "Missing or invalid appName"
    ∧ (lambda_handler ⟨"zoolanding-data-raw", false⟩ ⟨true, true⟩
        ⟨some (PyVal.str "\x7b\"appName\":\"  \",\"timestamp\":5\x7d"), false⟩
        ⟨Option.none, "deadbeef"⟩).puts = [] :=
  ⟨(claim_C4 ⟨"zoolanding-data-raw", false⟩ ⟨true, true⟩
      ⟨some (PyVal.str "\x7b\"appName\":\"  \",\"timestamp\":5\x7d"), false⟩
      ⟨Option.none, "deadbeef"⟩
      "\x7b\"appName\":\"  \",\"timestamp\":5\x7d"
      [("appName", PyVal.str "  "), ("timestamp", PyVal.int 5)]
      rfl (by rfl) (by decide)).1,
   (claim_C4 ⟨"zoolanding-data-raw", false⟩ ⟨true, true⟩
      ⟨some (PyVal.str "\x7b\"appName\":\"  \",\"timestamp\":5\x7d"), false⟩
      ⟨Option.none, "deadbeef"⟩
      "\x7b\"appName\":\"  \",\"timestamp\":5\x7d"
      [("appName", PyVal.str "  "), ("timestamp", PyVal.int 5)]
      rfl (by rfl) (by decide)).2.2⟩

/-- C5: with dry-run enabled no invocation ever issues a put call, and an
otherwise-valid input — one whose body decodes and parses, whose appName and
timestamp validate, and whose derived date is in range — gets the 200
response whose body carries ok, bucket, key, size and the dryRun marker. -/
theorem claim_C5 :
    (∀ cfg s3 event ctx, cfg.dryRun = true → (lambda_handler cfg s3 event ctx).puts = [])
    ∧ (∀ cfg s3 event ctx bodyStr kvs a tsMs parts,
        cfg.dryRun = true →
        _decode_body event = Except.ok bodyStr →
        pyJsonLoads bodyStr = Except.ok (PyVal.dict kvs) →
        (pyDictGet kvs "appName").getD PyVal.none = PyVal.str a →
        a.data.all pyIsSpace = false →
        _normalize_timestamp_to_ms ((pyDictGet kvs "timestamp").getD PyVal.none) =
          Except.ok tsMs →
        _derive_date_parts tsMs = Except.ok parts →
        (lambda_handler cfg s3 event ctx).response =
          _json_response 200
            (okRespBody cfg.rawBucketName (handlerKey a parts tsMs (_get_request_id ctx))
              (utf8Encode bodyStr).length true)) := by
  constructor
  · exact fun cfg s3 event ctx hd => dryRun_no_puts cfg s3 event ctx hd
  · intro cfg s3 event ctx bodyStr kvs a tsMs parts hd hdec hparse happ hws hts hder
    rw [lambda_handler_validated cfg s3 event ctx bodyStr kvs a tsMs parts
      hdec hparse happ hws hts hder]
    simp [storeAndRespond, hd]

/-- C5 witness: a concrete dry-run invocation issues no put and returns the
dry-run success response. -/
theorem claim_C5_witness :
    (lambda_handler ⟨"zoolanding-data-raw", true⟩ ⟨true, true⟩
      ⟨some (PyVal.str "\x7b\"appName\":\"demo\",\"timestamp\":true\x7d"), false⟩
      ⟨Option.none, "deadbeef"⟩).puts = []
    ∧ (lambda_handler ⟨"zoolanding-data-raw", true⟩ ⟨true, true⟩
        ⟨some (PyVal.str "\x7b\"appName\":\"demo\",\"timestamp\":true\x7d"), false⟩
        ⟨Option.none, "deadbeef"⟩).response =
      _json_response 200
        (okRespBody "zoolanding-data-raw"
          (handlerKey "demo" ("1970", "01", "01") 1000
            (_get_request_id ⟨Option.none, "deadbeef"⟩))
          (utf8Encode "\x7b\"appName\":\"demo\",\"timestamp\":true\x7d").length true) :=
  ⟨claim_C5.1 ⟨"zoolanding-data-raw", true⟩ ⟨true, true⟩
     ⟨some (PyVal.str "\x7b\"appName\":\"demo\",\"timestamp\":true\x7d"), false⟩
     ⟨Option.none, "deadbeef"⟩ rfl,
   claim_C5.2 ⟨"zoolanding-data-raw", true⟩ ⟨true, true⟩
     ⟨some (PyVal.str "\x7b\"appName\":\"demo\",\"timestamp\":true\x7d"), false⟩
     ⟨Option.none, "deadbeef"⟩
     "\x7b\"appName\":\"demo\",\"timestamp\":true\x7d"
     [("appName", PyVal.str "demo"), ("timestamp", PyVal.bool true)] "demo" 1000
     ("1970", "01", "01")
     rfl rfl (by rfl) (by rfl) (by decide)
     (by rw [(by rfl : (pyDictGet [("appName", PyVal.str "demo"),
         ("timestamp", PyVal.bool true)] "timestamp").getD PyVal.none = PyVal.bool true)]
         exact normalize_bool_true)
     (by decide)⟩

/-- C7 counterexample: for the malformed body consisting of an opening brace
followed by `not valid`, parsing fails with the parser's property-name error,
yet the handler returns the fixed message "Body is not valid JSON", and the
parser's error text does not appear in the returned body. -/
theorem claim_C7_counterexample :
    pyJsonLoads "\x7bnot valid" =
      Except.error "Expecting property name enclosed in double quotes"
    ∧ (lambda_handler ⟨"zoolanding-data-raw", false⟩ ⟨true, true⟩
        ⟨some (PyVal.str "\x7bnot valid"), false⟩ ⟨Option.none, "deadbeef"⟩).response =
      _bad_request "Body is not valid JSON"
    ∧ ¬ ("Expecting property name enclosed in double quotes".data <:+:
        (lambda_handler ⟨"zoolanding-data-raw", false⟩ ⟨true, true⟩
          ⟨some (PyVal.str "\x7bnot valid"), false⟩
          ⟨Option.none, "deadbeef"⟩).response.body.data) :=
  ⟨by rfl, by rfl, by decide⟩

/-- C7 amended: every body text that fails to parse as JSON yields the 400
response with the fixed message "Body is not valid JSON" (the parser's error
text is only logged, not returned), and no put call is attempted. -/
theorem claim_C7_amended :
    ∀ cfg s3 event ctx bodyStr e,
      _decode_body event = Except.ok bodyStr →
      pyJsonLoads bodyStr = Except.error e →
      (lambda_handler cfg s3 event ctx).response = _bad_request "Body is not valid JSON"
      ∧ (lambda_handler cfg s3 event ctx).response.statusCode = 400
      ∧ (lambda_handler cfg s3 event ctx).puts = [] := by
  intro cfg s3 event ctx bodyStr e hdec hparse
  unfold lambda_handler
  simp [hdec, hparse, _bad_request, _json_response]

/-- C7 amended witness: a concrete non-JSON body. -/
theorem claim_C7_amended_witness :
    (lambda_handler ⟨"zoolanding-data-raw", false⟩ ⟨true, true⟩
      ⟨some (PyVal.str "notjson"), false⟩ ⟨Option.none, "deadbeef"⟩).response =
      _bad_request "Body is not valid JSON"
    ∧ (lambda_handler ⟨"zoolanding-data-raw", false⟩ ⟨true, true⟩
        ⟨some (PyVal.str "notjson"), false⟩ ⟨Option.none, "deadbeef"⟩).puts = [] :=
  ⟨(claim_C7_amended ⟨"zoolanding-data-raw", false⟩ ⟨true, true⟩
      ⟨some (PyVal.str "notjson"), false⟩ ⟨Option.none, "deadbeef"⟩
      "notjson" "Expecting value" rfl (by rfl)).1,
   (claim_C7_amended ⟨"zoolanding-data-raw", false⟩ ⟨true, true⟩
      ⟨some (PyVal.str "notjson"), false⟩ ⟨Option.none, "deadbeef"⟩
      "notjson" "Expecting value" rfl (by rfl)).2.2⟩

/-- C8 counterexample: "True" is a case-insensitive variant of "true", yet
the DRY_RUN decoding leaves dry-run disabled, because the code compares
against the fixed set of spellings 1, true, TRUE, yes, YES. -/
theorem claim_C8_counterexample :
    pyLower "True" = "true" ∧ DRY_RUN_of (some "True") = false := by
  constructor
  · decide
  · rfl

/-- C8 amended: dry-run is enabled exactly for the five spellings "1",
"true", "TRUE", "yes" and "YES" (mixed-case variants such as "True" or "Yes"
disable it), and whenever it is enabled no storage put call occurs. -/
theorem claim_C8_amended :
    (∀ s, DRY_RUN_of (some s) = true ↔
      (s = "1" ∨ s = "true" ∨ s = "TRUE" ∨ s = "yes" ∨ s = "YES"))
    ∧ (∀ bucketEnv dryEnv s3 event ctx, DRY_RUN_of dryEnv = true →
        (lambda_handler (configOfEnv bucketEnv dryEnv) s3 event ctx).puts = []) := by
  constructor
  · intro s
    simp only [DRY_RUN_of]
    simp [or_assoc]
  · intro bucketEnv dryEnv s3 event ctx hd
    exact dryRun_no_puts _ s3 event ctx (by simp [configOfEnv, hd])

/-- C8 amended witness: the exact spelling "yes" enables dry-run and a
concrete invocation under it issues no put. -/
theorem claim_C8_amended_witness :
    DRY_RUN_of (some "yes") = true
    ∧ (lambda_handler (configOfEnv Option.none (some "yes")) ⟨true, true⟩
        ⟨some (PyVal.str "\x7b\x7d"), false⟩ ⟨Option.none, "deadbeef"⟩).puts = [] :=
  ⟨(claim_C8_amended.1 "yes").mpr (by simp),
   claim_C8_amended.2 Option.none (some "yes") ⟨true, true⟩
     ⟨some (PyVal.str "\x7b\x7d"), false⟩ ⟨Option.none, "deadbeef"⟩ (by rfl)⟩

/-- C6: every 500 response of the handler is exactly the generic server
error (status 500, body with ok false and the fixed text "Internal error",
never the underlying error text); and on the storage path — a fully
validated input whose date derived — a client construction failure or a put
failure in live mode produces exactly that response. -/
theorem claim_C6 :
    (∀ cfg s3 event ctx,
      (lambda_handler cfg s3 event ctx).response.statusCode = 500 →
      (lambda_handler cfg s3 event ctx).response = _server_error)
    ∧ (∀ cfg s3 event ctx bodyStr kvs a tsMs parts,
        _decode_body event = Except.ok bodyStr →
        pyJsonLoads bodyStr = Except.ok (PyVal.dict kvs) →
        (pyDictGet kvs "appName").getD PyVal.none = PyVal.str a →
        a.data.all pyIsSpace = false →
        _normalize_timestamp_to_ms ((pyDictGet kvs "timestamp").getD PyVal.none) =
          Except.ok tsMs →
        _derive_date_parts tsMs = Except.ok parts →
        cfg.dryRun = false →
        (s3.clientOk = false ∨ s3.putOk = false) →
        (lambda_handler cfg s3 event ctx).response = _server_error)
    ∧ _server_error.statusCode = 500
    ∧ _server_error.body = "\x7b\"ok\":false,\"error\":\"Internal error\"\x7d" := by
  refine ⟨?_, ?_, rfl, rfl⟩
  · intro cfg s3 event ctx h
    rcases lambda_handler_response_shape cfg s3 event ctx with h1 | ⟨msg, h1⟩ | ⟨b, h1⟩
    · exact h1
    · rw [h1] at h
      simp [_bad_request, _json_response] at h
    · rw [h1] at h
      simp [_json_response] at h
  · intro cfg s3 event ctx bodyStr kvs a tsMs parts hdec hparse happ hws hts hder hd hflag
    rw [lambda_handler_validated cfg s3 event ctx bodyStr kvs a tsMs parts
      hdec hparse happ hws hts hder]
    rcases hflag with hc | hp
    · simp [storeAndRespond, hd, hc]
    · by_cases hc2 : s3.clientOk = true
      · simp [storeAndRespond, hd, hc2, hp]
      · rw [Bool.not_eq_true] at hc2
        simp [storeAndRespond, hd, hc2]

/-- C6 witness: a body parsing to a non-object makes the pipeline raise at
`payload.get`, and the caller sees exactly the generic 500. -/
theorem claim_C6_witness :
    (lambda_handler ⟨"zoolanding-data-raw", false⟩ ⟨true, true⟩
      ⟨some (PyVal.str "[1,2]"), false⟩ ⟨Option.none, "deadbeef"⟩).response = _server_error :=
  claim_C6.1 ⟨"zoolanding-data-raw", false⟩ ⟨true, true⟩
    ⟨some (PyVal.str "[1,2]"), false⟩ ⟨Option.none, "deadbeef"⟩ (by rfl)

/-- C3: for every invocation whose body decodes, each put call carries
exactly the UTF-8 bytes of the decoded body text, and every 200 response
reports as size exactly the UTF-8 byte length of that text. -/
theorem claim_C3 :
    ∀ cfg s3 event ctx bodyStr,
      _decode_body event = Except.ok bodyStr →
      (∀ p ∈ (lambda_handler cfg s3 event ctx).puts, p.body = utf8Encode bodyStr)
      ∧ ((lambda_handler cfg s3 event ctx).response.statusCode = 200 →
        ∃ key, (lambda_handler cfg s3 event ctx).response =
          _json_response 200
            (okRespBody cfg.rawBucketName key (utf8Encode bodyStr).length cfg.dryRun)) := by
  intro cfg s3 event ctx bodyStr hdec
  refine ⟨?_, lambda_handler_200_shape cfg s3 event ctx bodyStr hdec⟩
  intro p hp
  rcases lambda_handler_puts_shape cfg s3 event ctx bodyStr hdec with h | ⟨key, h⟩
  · rw [h] at hp
    simp at hp
  · rw [h] at hp
    simp at hp
    rw [hp]

/-- C3 witness: a concrete live invocation. -/
theorem claim_C3_witness :
    (∀ p ∈ (lambda_handler ⟨"zoolanding-data-raw", false⟩ ⟨true, true⟩
        ⟨some (PyVal.str "\x7b\"appName\":\"demo\",\"timestamp\":true\x7d"), false⟩
        ⟨Option.none, "deadbeef"⟩).puts,
      p.body = utf8Encode "\x7b\"appName\":\"demo\",\"timestamp\":true\x7d")
    ∧ ((lambda_handler ⟨"zoolanding-data-raw", false⟩ ⟨true, true⟩
        ⟨some (PyVal.str "\x7b\"appName\":\"demo\",\"timestamp\":true\x7d"), false⟩
        ⟨Option.none, "deadbeef"⟩).response.statusCode = 200 →
      ∃ key, (lambda_handler ⟨"zoolanding-data-raw", false⟩ ⟨true, true⟩
          ⟨some (PyVal.str "\x7b\"appName\":\"demo\",\"timestamp\":true\x7d"), false⟩
          ⟨Option.none, "deadbeef"⟩).response =
        _json_response 200
          (okRespBody "zoolanding-data-raw" key
            (utf8Encode "\x7b\"appName\":\"demo\",\"timestamp\":true\x7d").length false)) :=
  claim_C3 ⟨"zoolanding-data-raw", false⟩ ⟨true, true⟩
    ⟨some (PyVal.str "\x7b\"appName\":\"demo\",\"timestamp\":true\x7d"), false⟩
    ⟨Option.none, "deadbeef"⟩
    "\x7b\"appName\":\"demo\",\"timestamp\":true\x7d" rfl

/-- C1: a decoded body parsing to an object with appName "demo" and
timestamp value 1700000000, under a request id ending in "ABCD1234", yields
the storage key demo/2023/11/14/1700000000000-ABCD1234.json and (when the
storage step succeeds or dry-run is on) the 200 response carrying ok, the
configured bucket, that key, and the UTF-8 byte length of the body. -/
theorem claim_C1 :
    ∀ cfg s3 event ctx bodyStr kvs tv r pre,
      _decode_body event = Except.ok bodyStr →
      pyJsonLoads bodyStr = Except.ok (PyVal.dict kvs) →
      (pyDictGet kvs "appName").getD PyVal.none = PyVal.str "demo" →
      (pyDictGet kvs "timestamp").getD PyVal.none = tv →
      pyNumValue tv = some 1700000000 →
      ctx.reqId = some (PyVal.str r) →
      r.data = pre ++ "ABCD1234".data →
      (cfg.dryRun = true ∨ (s3.clientOk = true ∧ s3.putOk = true)) →
      (lambda_handler cfg s3 event ctx).response =
        _json_response 200
          (okRespBody cfg.rawBucketName "demo/2023/11/14/1700000000000-ABCD1234.json"
            (utf8Encode bodyStr).length cfg.dryRun) := by
  intro cfg s3 event ctx bodyStr kvs tv r pre hdec hparse happ htv hnum hreq hdata hok
  have hws : ("demo" : String).data.all pyIsSpace = false := by decide
  have hn : _normalize_timestamp_to_ms ((pyDictGet kvs "timestamp").getD PyVal.none) =
      Except.ok 1700000000000 := by
    rw [htv]
    exact normalize_value_17e8 tv hnum
  have hder : _derive_date_parts 1700000000000 = Except.ok ("2023", "11", "14") := by decide
  have hrid : _get_request_id ctx = "ABCD1234" :=
    get_request_id_suffix ctx r "ABCD1234" pre hreq hdata (by decide)
  have hkey : handlerKey "demo" ("2023", "11", "14") 1700000000000 "ABCD1234" =
      "demo/2023/11/14/1700000000000-ABCD1234.json" := by decide
  rw [lambda_handler_validated cfg s3 event ctx bodyStr kvs "demo" 1700000000000
    ("2023", "11", "14") hdec hparse happ hws hn hder, hrid, hkey]
  rcases hok with hd | ⟨hc2, hp⟩
  · simp [storeAndRespond, hd]
  · by_cases hd : cfg.dryRun = true
    · simp [storeAndRespond, hd]
    · rw [Bool.not_eq_true] at hd
      simp [storeAndRespond, hd, hc2, hp]

/-- C1 witness: the fixed demo event of the spec, in dry-run mode. -/
theorem claim_C1_witness :
    (lambda_handler ⟨"zoolanding-data-raw", true⟩ ⟨true, true⟩
      ⟨some (PyVal.str "\x7b\"appName\":\"demo\",\"timestamp\":1700000000\x7d"), false⟩
      ⟨some (PyVal.str "12345678-aaaa-ABCD1234"), "deadbeef"⟩).response =
      _json_response 200
        (okRespBody "zoolanding-data-raw" "demo/2023/11/14/1700000000000-ABCD1234.json"
          (utf8Encode "\x7b\"appName\":\"demo\",\"timestamp\":1700000000\x7d").length true) :=
  claim_C1 ⟨"zoolanding-data-raw", true⟩ ⟨true, true⟩
    ⟨some (PyVal.str "\x7b\"appName\":\"demo\",\"timestamp\":1700000000\x7d"), false⟩
    ⟨some (PyVal.str "12345678-aaaa-ABCD1234"), "deadbeef"⟩
    "\x7b\"appName\":\"demo\",\"timestamp\":1700000000\x7d"
    [("appName", PyVal.str "demo"), ("timestamp", PyVal.int 1700000000)]
    (PyVal.int 1700000000) "12345678-aaaa-ABCD1234" ("12345678-aaaa-".data)
    rfl (by rfl) (by rfl) (by rfl) (by decide) rfl (by rfl) (Or.inl rfl)
